import Mathlib

/-!
Verification development for the Motivodo task-tracking application.

The embedding models the server request handlers of
`ModernTodo/server/routes.ts` (authentication, task CRUD, the daily
quote endpoint) and the client-side task filter of the task list
component.  Persistent state (the `users` and `tasks` tables) is
modelled as explicit lists threaded through the handlers; the signed
session token is modelled as a record whose signature field must equal
a deterministic signing function of the secret, payload and expiry.
-/

namespace Motivodo

/-- A row of the `users` table: id, unique username, stored password hash. -/
structure User where
  id : String
  username : String
  password : String
deriving DecidableEq, Repr

/-- A row of the `tasks` table.  `description`, `dueDate`, `priority` and
`category` are nullable columns, modelled with `Option`. -/
structure Task where
  id : String
  userId : String
  title : String
  description : Option String
  dueDate : Option Nat
  completed : Bool
  priority : Option String
  category : Option String
  createdAt : Nat
deriving DecidableEq, Repr

/-- The durable state owned by the persistence layer. -/
structure AppState where
  users : List User
  tasks : List Task
deriving DecidableEq, Repr

/-! ## Client-side filtering (`applyFilters` in the task list component) -/

/-- The filter specification held by the dashboard
(`TaskFiltersState`): free-text search, allowed priorities, allowed
categories, completion mode (`"all"` / `"active"` / `"completed"`). -/
structure TaskFiltersState where
  search : String
  priority : List String
  category : List String
  completed : String
deriving DecidableEq, Repr

/-- JavaScript `string.includes(sub)`: `sub` occurs as a contiguous
substring of `s`. -/
def strIncludes (s sub : String) : Bool :=
  decide (sub.toList <:+: s.toList)

/-- The search block of `applyFilters`:
`if (filters.search) { ... if (!matchesSearch) return false }`.
An empty search string is falsy, so it disables the dimension; a
`null` or empty-string description is falsy, so only the title is
searched then. -/
def searchFilterOk (filters : TaskFiltersState) (task : Task) : Bool :=
  if filters.search.isEmpty then true
  else
    let searchLower := filters.search.toLower
    strIncludes task.title.toLower searchLower ||
      (match task.description with
       | some d => strIncludes d.toLower searchLower
       | none => false)

/-- The priority block of `applyFilters`:
`if (!task.priority || !filters.priority.includes(task.priority)) return false`.
A `null` or empty-string priority is falsy and fails the block. -/
def priorityFilterOk (filters : TaskFiltersState) (task : Task) : Bool :=
  if filters.priority.isEmpty then true
  else
    match task.priority with
    | some p => !p.isEmpty && filters.priority.contains p
    | none => false

/-- The category block of `applyFilters`, same shape as the priority
block. -/
def categoryFilterOk (filters : TaskFiltersState) (task : Task) : Bool :=
  if filters.category.isEmpty then true
  else
    match task.category with
    | some c => !c.isEmpty && filters.category.contains c
    | none => false

/-- The completion-status block of `applyFilters`. -/
def completionFilterOk (filters : TaskFiltersState) (task : Task) : Bool :=
  if filters.completed == "active" then !task.completed
  else if filters.completed == "completed" then task.completed
  else true

/-- One step of `applyFilters`: the predicate applied to each task,
the conjunction of the four early-return blocks of the arrow function
inside `tasks.filter(...)`. -/
def taskMatchesFilters (filters : TaskFiltersState) (task : Task) : Bool :=
  searchFilterOk filters task &&
    priorityFilterOk filters task &&
    categoryFilterOk filters task &&
    completionFilterOk filters task

/-- `applyFilters` from the task list component: keeps exactly the tasks
passing every dimension of the filter specification. -/
def applyFilters (filters : TaskFiltersState) (tasks : List Task) : List Task :=
  tasks.filter (taskMatchesFilters filters)

/-- The dashboard's initial (empty) filter specification. -/
def emptyFilters : TaskFiltersState :=
  { search := "", priority := [], category := [], completed := "all" }

/-! ## Storage layer (`DatabaseStorage`) -/

/-- The sort order of `getTasksByUserId`: `ORDER BY createdAt DESC`. -/
def createdDesc (a b : Task) : Prop := b.createdAt ≤ a.createdAt

instance : DecidableRel createdDesc := fun a b => by
  unfold createdDesc; infer_instance

instance : IsTotal Task createdDesc :=
  ⟨fun a b => Nat.le_total b.createdAt a.createdAt⟩

instance : IsTrans Task createdDesc :=
  ⟨fun _ _ _ h1 h2 => Nat.le_trans h2 h1⟩

/-- `SELECT * FROM users WHERE id = ? LIMIT 1`. -/
def getUser (st : AppState) (id : String) : Option User :=
  st.users.find? (fun u => u.id == id)

/-- `SELECT * FROM users WHERE username = ? LIMIT 1`. -/
def getUserByUsername (st : AppState) (username : String) : Option User :=
  st.users.find? (fun u => u.username == username)

/-- `INSERT INTO users VALUES ... RETURNING`. -/
def createUser (st : AppState) (u : User) : AppState :=
  { st with users := st.users ++ [u] }

/-- `SELECT * FROM tasks WHERE userId = ? ORDER BY createdAt DESC`. -/
def getTasksByUserId (st : AppState) (userId : String) : List Task :=
  List.insertionSort createdDesc (st.tasks.filter (fun t => t.userId == userId))

/-- `SELECT * FROM tasks WHERE id = ? LIMIT 1`. -/
def getTask (st : AppState) (id : String) : Option Task :=
  st.tasks.find? (fun t => t.id == id)

/-- `INSERT INTO tasks VALUES ... RETURNING`. -/
def createTask (st : AppState) (t : Task) : AppState :=
  { st with tasks := st.tasks ++ [t] }

/-- The wire form of a task create / update body after JSON parsing:
every column of the task schema may be present or absent, and the
nullable columns may explicitly be set to null.  Unknown keys (such as
`id` or `userId`) are stripped by schema parsing and so do not appear. -/
structure TaskPatch where
  title : Option String := none
  description : Option (Option String) := none
  dueDate : Option (Option Nat) := none
  completed : Option Bool := none
  priority : Option String := none
  category : Option (Option String) := none
deriving DecidableEq, Repr

/-- Merge the provided fields of a partial update into an existing row
(the `SET` clause of `UPDATE tasks`); `id`, `userId` and `createdAt`
are never part of the update payload and are untouched. -/
def applyPatch (t : Task) (p : TaskPatch) : Task :=
  { t with
    title := p.title.getD t.title
    description := p.description.getD t.description
    dueDate := p.dueDate.getD t.dueDate
    completed := p.completed.getD t.completed
    priority := (p.priority.map some).getD t.priority
    category := p.category.getD t.category }

/-- `UPDATE tasks SET ... WHERE id = ? RETURNING`: merges the provided
fields into the matching row and returns the updated row (or `none`
when no row matched). -/
def updateTask (st : AppState) (id : String) (p : TaskPatch) :
    Option Task × AppState :=
  let newTasks := st.tasks.map (fun t => if t.id == id then applyPatch t p else t)
  (newTasks.find? (fun t => t.id == id), { st with tasks := newTasks })

/-- `DELETE FROM tasks WHERE id = ? RETURNING`: removes the matching
rows and reports whether any row was affected. -/
def deleteTask (st : AppState) (id : String) : Bool × AppState :=
  let remaining := st.tasks.filter (fun t => !(t.id == id))
  (remaining.length < st.tasks.length, { st with tasks := remaining })

/-! ## Request validation (shared zod schemas) -/

/-- Modelled from the spec: `insertUserSchema` (the shared schema module
is not part of the sources here).  Registration input must carry a
username and a password; the username is non-empty. -/
def insertUserSchemaOk (username password : String) : Bool :=
  !username.isEmpty && !password.isEmpty

/-- Modelled from the spec: `insertTaskSchema` — "non-empty title
required; other fields optional with defaults"; priority, if present,
is one of the three enumerated values. -/
def insertTaskSchemaOk (b : TaskPatch) : Bool :=
  (match b.title with
   | some t => !t.isEmpty
   | none => false) &&
  (match b.priority with
   | some p => p == "low" || p == "medium" || p == "high"
   | none => true)

/-- Modelled from the spec: `insertTaskSchema.partial()` — the same
schema with every field optional; a provided title must still be
non-empty and a provided priority must still be in the enumeration. -/
def taskPatchOk (b : TaskPatch) : Bool :=
  (match b.title with
   | some t => !t.isEmpty
   | none => true) &&
  (match b.priority with
   | some p => p == "low" || p == "medium" || p == "high"
   | none => true)

/-! ## Session tokens (JWT) -/

/-- Default signing secret (`SESSION_SECRET` unset). -/
def JWT_SECRET : String := "motivodo-secret-key"

/-- A decoded session token: payload `{userId}`, expiry instant, and
the signature produced at issuance. -/
structure SessionToken where
  userId : String
  exp : Nat
  sig : String
deriving DecidableEq, Repr

/-- The signature a correct signer produces over a `{userId}` payload
with the given expiry under the given secret. -/
def mkSig (secret userId : String) (exp : Nat) : String :=
  secret ++ "." ++ userId ++ "." ++ toString exp

/-- `jwt.sign({userId}, secret)` with an expiry instant. -/
def jwtSign (secret userId : String) (exp : Nat) : SessionToken :=
  { userId := userId, exp := exp, sig := mkSig secret userId exp }

/-- `jwt.verify(token, secret)`: succeeds (yielding the embedded
payload) exactly when the signature is the correct one for the payload
and the token is not yet expired; never consults the user table. -/
def jwtVerify (secret : String) (now : Nat) (tok : SessionToken) : Option String :=
  if tok.sig == mkSig secret tok.userId tok.exp && now < tok.exp then
    some tok.userId
  else
    none

/-! ## HTTP handlers (`routes.ts`) -/

/-- The observable response of a handler: either an `res.json(...)`
payload or an error status with its generic message. -/
inductive ApiResult where
  | okTask (task : Task)
  | okTasks (tasks : List Task)
  | okUser (id : String) (username : String)
  | okMessage (message : String)
  | okEmpty
  | apiError (status : Nat) (message : String)
deriving DecidableEq, Repr

/-- `POST /api/auth/register`: validate, reject a taken username with
400, otherwise hash the password, persist the user and return it
without the password field.  `hash` is the bcrypt transform, `newId`
the generated row id. -/
def registerHandler (st : AppState) (username password : String)
    (hash : String → String) (newId : String) : ApiResult × AppState :=
  if !insertUserSchemaOk username password then
    (.apiError 422 "Validation failed", st)
  else
    match getUserByUsername st username with
    | some _ => (.apiError 400 "Username already exists", st)
    | none =>
      let user : User := { id := newId, username := username, password := hash password }
      (.okUser user.id user.username, createUser st user)

/-- The authentication middleware composed with a protected handler:
missing cookie or failed verification is a 401; otherwise the handler
runs with `req.userId` set to the token's embedded user id. -/
def withAuth (cookie : Option SessionToken) (secret : String) (now : Nat)
    (handler : String → ApiResult × AppState) (st : AppState) : ApiResult × AppState :=
  match cookie with
  | none => (.apiError 401 "Authentication required", st)
  | some tok =>
    match jwtVerify secret now tok with
    | none => (.apiError 401 "Invalid or expired token", st)
    | some userId => handler userId

/-- `GET /api/tasks` (after authentication): the caller's tasks, newest
first. -/
def listTasksHandler (st : AppState) (callerId : String) : ApiResult :=
  .okTasks (getTasksByUserId st callerId)

/-- `POST /api/tasks` (after authentication): validate, then persist a
task owned by the caller, applying the schema defaults for omitted
fields.  `newId` is the generated row id, `now` the creation instant. -/
def createTaskHandler (st : AppState) (callerId : String) (body : TaskPatch)
    (newId : String) (now : Nat) : ApiResult × AppState :=
  if !insertTaskSchemaOk body then
    (.apiError 422 "Validation failed", st)
  else
    let task : Task :=
      { id := newId
        userId := callerId
        title := body.title.getD ""
        description := body.description.getD none
        dueDate := body.dueDate.getD none
        completed := body.completed.getD false
        priority := (body.priority.map some).getD (some "medium")
        category := body.category.getD none
        createdAt := now }
    (.okTask task, createTask st task)

/-- `PATCH /api/tasks/:id` (after authentication): validate the partial
body, then 404 when the task does not exist, then 403 when it exists
but is not the caller's, then merge and persist. -/
def patchTaskHandler (st : AppState) (callerId id : String) (body : TaskPatch) :
    ApiResult × AppState :=
  if !taskPatchOk body then
    (.apiError 422 "Validation failed", st)
  else
    match getTask st id with
    | none => (.apiError 404 "Task not found", st)
    | some task =>
      if task.userId != callerId then
        (.apiError 403 "Forbidden", st)
      else
        match updateTask st id body with
        | (some updated, st2) => (.okTask updated, st2)
        | (none, st2) => (.okEmpty, st2)

/-- `DELETE /api/tasks/:id` (after authentication): 404 when the task
does not exist, 403 when it is not the caller's, otherwise remove it. -/
def deleteTaskHandler (st : AppState) (callerId id : String) :
    ApiResult × AppState :=
  match getTask st id with
  | none => (.apiError 404 "Task not found", st)
  | some task =>
    if task.userId != callerId then
      (.apiError 403 "Forbidden", st)
    else
      (.okMessage "Task deleted successfully", (deleteTask st id).2)

/-! ## Daily quote endpoint -/

/-- A motivational quote: text and author. -/
structure Quote where
  text : String
  author : String
deriving DecidableEq, Repr

/-- The fixed in-memory quote list of `routes.ts`. -/
def quotes : List Quote :=
  [ ⟨"The secret of getting ahead is getting started.", "Mark Twain"⟩,
    ⟨"It always seems impossible until it\x27s done.", "Nelson Mandela"⟩,
    ⟨"Don\x27t watch the clock; do what it does. Keep going.", "Sam Levenson"⟩,
    ⟨"The future depends on what you do today.", "Mahatma Gandhi"⟩,
    ⟨"Believe you can and you\x27re halfway there.", "Theodore Roosevelt"⟩,
    ⟨"Success is not final, failure is not fatal: it is the courage to continue that counts.",
      "Winston Churchill"⟩,
    ⟨"The only way to do great work is to love what you do.", "Steve Jobs"⟩,
    ⟨"Your limitation—it\x27s only your imagination.", "Unknown"⟩,
    ⟨"Push yourself, because no one else is going to do it for you.", "Unknown"⟩,
    ⟨"Great things never come from comfort zones.", "Unknown"⟩,
    ⟨"Dream it. Wish it. Do it.", "Unknown"⟩,
    ⟨"Success doesn\x27t just find you. You have to go out and get it.", "Unknown"⟩,
    ⟨"The harder you work for something, the greater you\x27ll feel when you achieve it.",
      "Unknown"⟩,
    ⟨"Dream bigger. Do bigger.", "Unknown"⟩,
    ⟨"Don\x27t stop when you\x27re tired. Stop when you\x27re done.", "Unknown"⟩,
    ⟨"Wake up with determination. Go to bed with satisfaction.", "Unknown"⟩,
    ⟨"Do something today that your future self will thank you for.", "Sean Patrick Flanery"⟩,
    ⟨"Little things make big days.", "Unknown"⟩,
    ⟨"It\x27s going to be hard, but hard does not mean impossible.", "Unknown"⟩,
    ⟨"Don\x27t wait for opportunity. Create it.", "Unknown"⟩ ]

/-- The process-wide quote cache: the quote served last together with
the calendar date (`toDateString()`) it was computed on. -/
structure CachedQuote where
  text : String
  author : String
  date : String
deriving DecidableEq, Repr

/-- `Math.floor(random * quotes.length)` where the random draw is the
rational `num / den` (`Math.random()` yields `0 ≤ num / den < 1`,
i.e. `num < den`). -/
def pickIndex (num den : Nat) : Nat :=
  num * quotes.length / den

/-- `GET /api/quotes/daily/:refresh?`: if the cache is absent or holds
a quote of another calendar date, draw a fresh quote and cache it under
today's date; respond with the cached text/author.  The optional
`:refresh` path parameter is never read. -/
def dailyQuoteHandler (cache : Option CachedQuote) (today : String)
    (num den : Nat) (r : Option String) : Quote × Option CachedQuote :=
  match cache with
  | some c =>
    if c.date == today then (⟨c.text, c.author⟩, some c)
    else
      let q := quotes.getD (pickIndex num den) ⟨"", ""⟩
      (q, some ⟨q.text, q.author, today⟩)
  | none =>
    let q := quotes.getD (pickIndex num den) ⟨"", ""⟩
    (q, some ⟨q.text, q.author, today⟩)

/-- One call to the daily-quote endpoint: date at call time, the random
draw `num / den`, and the (ignored) refresh discriminator. -/
structure QuoteCall where
  today : String
  num : Nat
  den : Nat
  r : Option String
deriving DecidableEq, Repr

/-- Run a sequence of calls against the quote endpoint, collecting the
responses and threading the cache. -/
def runQuoteCalls (cache : Option CachedQuote) :
    List QuoteCall → List Quote × Option CachedQuote
  | [] => ([], cache)
  | c :: rest =>
    let (q, cache2) := dailyQuoteHandler cache c.today c.num c.den c.r
    let (qs, cache3) := runQuoteCalls cache2 rest
    (q :: qs, cache3)

/-- The quote-cache states the server can reach: initially `null`, then
whatever the handler leaves behind after a call with a well-formed
random draw. -/
inductive QuoteReachable : Option CachedQuote → Prop
  | init : QuoteReachable none
  | step {cache : Option CachedQuote} (today : String) {num den : Nat}
      (r : Option String) (hrand : num < den) :
      QuoteReachable cache →
      QuoteReachable (dailyQuoteHandler cache today num den r).2

/-! ## Specification-side filter predicates

`ClaimMatches` renders the filter criteria literally as the spec states
them; `SpecMatches` is the amended form, which additionally requires a
task's priority / category value to be non-empty (JavaScript
truthiness) before it is compared against a non-empty filter set. -/

/-- The search dimension: an empty search text imposes no constraint;
otherwise the lowered search text must occur inside the lowered title
or the lowered description. -/
def SearchMatches (f : TaskFiltersState) (t : Task) : Prop :=
  f.search = "" ∨
    f.search.toLower.toList <:+: t.title.toLower.toList ∨
    ∃ d, t.description = some d ∧ f.search.toLower.toList <:+: d.toLower.toList

/-- The completion dimension: mode `active` excludes completed tasks,
mode `completed` excludes non-completed tasks, anything else imposes no
constraint. -/
def CompletionMatches (f : TaskFiltersState) (t : Task) : Prop :=
  (f.completed = "active" → t.completed = false) ∧
    (f.completed = "completed" → t.completed = true)

/-- The filter criteria exactly as the spec sentence states them: a
non-empty priority (resp. category) set requires the task's priority
(resp. category) to be one of its elements. -/
def ClaimMatches (f : TaskFiltersState) (t : Task) : Prop :=
  SearchMatches f t ∧
    (f.priority = [] ∨ ∃ p, t.priority = some p ∧ p ∈ f.priority) ∧
    (f.category = [] ∨ ∃ c, t.category = some c ∧ c ∈ f.category) ∧
    CompletionMatches f t

/-- The amended filter criteria: against a non-empty priority (resp.
category) set, the task's priority (resp. category) must be present,
non-empty and an element of the set. -/
def SpecMatches (f : TaskFiltersState) (t : Task) : Prop :=
  SearchMatches f t ∧
    (f.priority = [] ∨ ∃ p, t.priority = some p ∧ p ≠ "" ∧ p ∈ f.priority) ∧
    (f.category = [] ∨ ∃ c, t.category = some c ∧ c ≠ "" ∧ c ∈ f.category) ∧
    CompletionMatches f t

theorem string_isEmpty_false_iff (s : String) : s.isEmpty = false ↔ s ≠ "" := by
  rw [Bool.eq_false_iff]
  exact not_congr (String.isEmpty_iff s)

theorem searchFilterOk_iff (f : TaskFiltersState) (t : Task) :
    searchFilterOk f t = true ↔ SearchMatches f t := by
  unfold searchFilterOk SearchMatches
  by_cases h : f.search = ""
  · simp [h, String.isEmpty_iff]
  · have hne : f.search.isEmpty = false := (string_isEmpty_false_iff _).mpr h
    rw [if_neg (by simp [hne])]
    cases hd : t.description with
    | none => simp [h, strIncludes]
    | some d => simp [h, strIncludes]

theorem priorityFilterOk_iff (f : TaskFiltersState) (t : Task) :
    priorityFilterOk f t = true ↔
      (f.priority = [] ∨ ∃ p, t.priority = some p ∧ p ≠ "" ∧ p ∈ f.priority) := by
  unfold priorityFilterOk
  by_cases h : f.priority = []
  · simp [h]
  · have hne : f.priority.isEmpty = false := by
      simpa [List.isEmpty_iff] using h
    rw [if_neg (by simp [hne])]
    cases hp : t.priority with
    | none => simp [h]
    | some p => simp [h, string_isEmpty_false_iff]

theorem categoryFilterOk_iff (f : TaskFiltersState) (t : Task) :
    categoryFilterOk f t = true ↔
      (f.category = [] ∨ ∃ c, t.category = some c ∧ c ≠ "" ∧ c ∈ f.category) := by
  unfold categoryFilterOk
  by_cases h : f.category = []
  · simp [h]
  · have hne : f.category.isEmpty = false := by
      simpa [List.isEmpty_iff] using h
    rw [if_neg (by simp [hne])]
    cases hc : t.category with
    | none => simp [h]
    | some c => simp [h, string_isEmpty_false_iff]

theorem completionFilterOk_iff (f : TaskFiltersState) (t : Task) :
    completionFilterOk f t = true ↔ CompletionMatches f t := by
  unfold completionFilterOk CompletionMatches
  by_cases h1 : f.completed = "active"
  · simp [h1]
  · by_cases h2 : f.completed = "completed"
    · simp [h2]
    · simp [h1, h2]

theorem taskMatchesFilters_iff (f : TaskFiltersState) (t : Task) :
    taskMatchesFilters f t = true ↔ SpecMatches f t := by
  unfold taskMatchesFilters SpecMatches
  simp only [Bool.and_eq_true, searchFilterOk_iff, priorityFilterOk_iff,
    categoryFilterOk_iff, completionFilterOk_iff, and_assoc]

end Motivodo

namespace Motivodo

/-- C5 (amended): membership in the output of the client-side filter is
exactly membership in the input together with satisfaction of all
active criteria, where — beyond the claim's wording — a non-empty
priority (resp. category) set also requires the task's priority (resp.
category) value to be present and non-empty before it is compared
against the set.  The output is a pure function of the task list and
the filter specification. -/
theorem claim5_filter_exact (f : TaskFiltersState) (ts : List Task) (t : Task) :
    t ∈ applyFilters f ts ↔ t ∈ ts ∧ SpecMatches f t := by
  rw [applyFilters, List.mem_filter, taskMatchesFilters_iff]

/-- A task whose category is the empty string. -/
def cexTask : Task :=
  { id := "t1", userId := "u1", title := "a", description := none, dueDate := none,
    completed := false, priority := some "medium", category := some "", createdAt := 0 }

/-- A filter specification whose category set contains the empty string. -/
def cexFilters : TaskFiltersState :=
  { search := "", priority := [], category := [""], completed := "all" }

/-- C5 counterexample: with the category set `[""]` and a task whose
category is `""`, the task's category is an element of the non-empty
category set — so the criteria as literally claimed are all satisfied —
yet `applyFilters` drops the task, because the empty string is falsy in
the `!task.category` guard. -/
theorem claim5_counterexample :
    ClaimMatches cexFilters cexTask ∧ applyFilters cexFilters [cexTask] = [] := by
  constructor
  · refine ⟨Or.inl rfl, Or.inl rfl, Or.inr ⟨"", rfl, List.mem_singleton.mpr rfl⟩, ?_, ?_⟩
    · intro h; exact absurd h (by decide)
    · intro h; exact absurd h (by decide)
  · decide

/-- C6: the client-side filter is idempotent, and the dashboard's
initial (empty) filter specification returns any task list unchanged. -/
theorem claim6_filter_idempotent :
    (∀ (f : TaskFiltersState) (ts : List Task),
        applyFilters f (applyFilters f ts) = applyFilters f ts) ∧
      (∀ ts : List Task, applyFilters emptyFilters ts = ts) := by
  constructor
  · intro f ts
    unfold applyFilters
    rw [List.filter_filter]
    apply List.filter_congr
    intro a _
    exact Bool.and_self _
  · intro ts
    unfold applyFilters
    apply List.filter_eq_self.mpr
    intro t _
    unfold taskMatchesFilters searchFilterOk priorityFilterOk categoryFilterOk
      completionFilterOk emptyFilters
    simp [String.isEmpty_iff]

/-- C4: `list()` returns exactly the tasks owned by the caller — a task
is in the response iff it is a stored task of the caller, and the
response is a permutation of the stored rows of the caller — ordered by
creation timestamp descending. -/
theorem claim4_list_owned_sorted (st : AppState) (uid : String) :
    (∀ t, t ∈ getTasksByUserId st uid ↔ t ∈ st.tasks ∧ t.userId = uid) ∧
      (getTasksByUserId st uid).Perm (st.tasks.filter (fun t => t.userId == uid)) ∧
      (getTasksByUserId st uid).Sorted createdDesc ∧
      listTasksHandler st uid = .okTasks (getTasksByUserId st uid) := by
  refine ⟨?_, ?_, ?_, rfl⟩
  · intro t
    unfold getTasksByUserId
    rw [List.mem_insertionSort, List.mem_filter]
    simp
  · exact List.perm_insertionSort createdDesc _
  · exact List.sorted_insertionSort createdDesc _

end Motivodo

namespace Motivodo

theorem applyPatch_preserves_id (t : Task) (p : TaskPatch) : (applyPatch t p).id = t.id := rfl

theorem applyPatch_preserves_userId (t : Task) (p : TaskPatch) :
    (applyPatch t p).userId = t.userId := rfl

/-- The row returned by `UPDATE ... RETURNING` is the found row with
the patch merged in: patching preserves ids, so the first row matching
the id after the update is the patched first match before it. -/
theorem find?_map_patch (id : String) (p : TaskPatch) :
    ∀ (l : List Task) (t : Task), l.find? (fun t => t.id == id) = some t →
      (l.map (fun t => if t.id == id then applyPatch t p else t)).find?
        (fun t => t.id == id) = some (applyPatch t p) := by
  intro l
  induction l with
  | nil => intro t h; simp at h
  | cons a l ih =>
    intro t h
    simp only [List.find?] at h
    cases ha : (a.id == id) with
    | true =>
      rw [ha] at h
      simp only [Option.some.injEq] at h
      subst h
      simp [List.map_cons, List.find?, applyPatch_preserves_id, ha]
    | false =>
      rw [ha] at h
      simp only at h
      simp only [List.map_cons, List.find?, ha, if_false, Bool.false_eq_true]
      exact ih t h

theorem updateTask_fst_of_getTask (st : AppState) (id : String) (p : TaskPatch) (t : Task)
    (h : getTask st id = some t) :
    (updateTask st id p).1 = some (applyPatch t p) :=
  find?_map_patch id p st.tasks t h

/-- C1: for the PATCH and DELETE task endpoints, a (validly formed)
request for an id that matches no task answers 404 regardless of
ownership, a request for an existing task of another owner answers
403, and in both failure cases the response is a constant error
carrying no task content and the state is unchanged.  The 404 case
needs only absence and the 403 case needs existence, so the existence
check precedes the ownership check. -/
theorem claim1_notfound_forbidden (st : AppState) (caller id : String) (body : TaskPatch) :
    (taskPatchOk body = true → getTask st id = none →
        patchTaskHandler st caller id body = (.apiError 404 "Task not found", st)) ∧
      (∀ t, taskPatchOk body = true → getTask st id = some t → t.userId ≠ caller →
        patchTaskHandler st caller id body = (.apiError 403 "Forbidden", st)) ∧
      (getTask st id = none →
        deleteTaskHandler st caller id = (.apiError 404 "Task not found", st)) ∧
      (∀ t, getTask st id = some t → t.userId ≠ caller →
        deleteTaskHandler st caller id = (.apiError 403 "Forbidden", st)) := by
  refine ⟨?_, ?_, ?_, ?_⟩
  · intro hv hn
    unfold patchTaskHandler
    rw [hv, hn]
    simp
  · intro t hv ht hown
    unfold patchTaskHandler
    rw [hv, ht]
    simp [bne_iff_ne, hown]
  · intro hn
    unfold deleteTaskHandler
    rw [hn]
  · intro t ht hown
    unfold deleteTaskHandler
    rw [ht]
    simp [bne_iff_ne, hown]

/-- Witness fixtures: two users and one task owned by the second. -/
def wUser1 : User := { id := "u1", username := "alice", password := "h1" }

def wUser2 : User := { id := "u2", username := "bob", password := "h2" }

def wTaskBob : Task :=
  { id := "t1", userId := "u2", title := "Bob task", description := some "d",
    dueDate := none, completed := false, priority := some "medium",
    category := some "home", createdAt := 5 }

def wState : AppState := { users := [wUser1, wUser2], tasks := [wTaskBob] }

/-- Witness for C1: caller `u1` hits 404 on a missing id and 403 on
`u2`'s task, for both PATCH and DELETE. -/
theorem claim1_witness :
    patchTaskHandler wState "u1" "missing" {} = (.apiError 404 "Task not found", wState) ∧
      patchTaskHandler wState "u1" "t1" {} = (.apiError 403 "Forbidden", wState) ∧
      deleteTaskHandler wState "u1" "missing" = (.apiError 404 "Task not found", wState) ∧
      deleteTaskHandler wState "u1" "t1" = (.apiError 403 "Forbidden", wState) := by
  have h1 := claim1_notfound_forbidden wState "u1" "missing" {}
  have h2 := claim1_notfound_forbidden wState "u1" "t1" {}
  exact ⟨h1.1 (by decide) (by decide),
    h2.2.1 wTaskBob (by decide) (by decide) (by decide),
    h1.2.2.1 (by decide),
    h2.2.2.2 wTaskBob (by decide) (by decide)⟩

/-- C2: a successful partial update answers with the stored task merged
with the patch; the merged task keeps the identifier and the owner of
the task it updates, and every field the patch omits keeps its prior
value. -/
theorem claim2_update_frame (st : AppState) (caller id : String) (p : TaskPatch) (t : Task)
    (hv : taskPatchOk p = true) (ht : getTask st id = some t) (hown : t.userId = caller) :
    (patchTaskHandler st caller id p).1 = .okTask (applyPatch t p) ∧
      (applyPatch t p).id = t.id ∧
      (applyPatch t p).userId = t.userId ∧
      (p.title = none → (applyPatch t p).title = t.title) ∧
      (p.description = none → (applyPatch t p).description = t.description) ∧
      (p.dueDate = none → (applyPatch t p).dueDate = t.dueDate) ∧
      (p.completed = none → (applyPatch t p).completed = t.completed) ∧
      (p.priority = none → (applyPatch t p).priority = t.priority) ∧
      (p.category = none → (applyPatch t p).category = t.category) := by
  have hu : (updateTask st id p).1 = some (applyPatch t p) :=
    updateTask_fst_of_getTask st id p t ht
  have hpair : updateTask st id p = (some (applyPatch t p), (updateTask st id p).2) := by
    rw [← hu]
  refine ⟨?_, rfl, rfl, ?_, ?_, ?_, ?_, ?_, ?_⟩
  · unfold patchTaskHandler
    rw [hv, ht, hpair]
    simp [hown]
  · intro h; simp [applyPatch, h]
  · intro h; simp [applyPatch, h]
  · intro h; simp [applyPatch, h]
  · intro h; simp [applyPatch, h]
  · intro h; simp [applyPatch, h]
  · intro h; simp [applyPatch, h]

/-- Witness for C2: `u2` toggles `completed` on its own task; the
response is the merged task and the omitted `title` keeps its value. -/
theorem claim2_witness :
    (patchTaskHandler wState "u2" "t1" { completed := some true }).1 =
        .okTask (applyPatch wTaskBob { completed := some true }) ∧
      (applyPatch wTaskBob { completed := some true }).title = wTaskBob.title ∧
      (applyPatch wTaskBob { completed := some true }).userId = wTaskBob.userId := by
  have h := claim2_update_frame wState "u2" "t1" { completed := some true } wTaskBob
    (by decide) (by decide) (by decide)
  exact ⟨h.1, h.2.2.2.1 rfl, h.2.2.1⟩

/-- C3: task creation validates the body before touching storage — a
missing or empty title is rejected with 422 and the state (hence the
set of persisted tasks) is unchanged — and a body passing the schema
yields a persisted task owned by the caller. -/
theorem claim3_create_validation (st : AppState) (caller : String) (body : TaskPatch)
    (newId : String) (now : Nat) :
    ((body.title = none ∨ body.title = some "") →
        createTaskHandler st caller body newId now = (.apiError 422 "Validation failed", st)) ∧
      (insertTaskSchemaOk body = true →
        ∃ task, createTaskHandler st caller body newId now = (.okTask task, createTask st task) ∧
          task.userId = caller) := by
  constructor
  · intro h
    have hbad : insertTaskSchemaOk body = false := by
      unfold insertTaskSchemaOk
      rcases h with h | h <;> rw [h] <;> rfl
    unfold createTaskHandler
    rw [hbad]
    simp
  · intro hv
    unfold createTaskHandler
    rw [hv]
    exact ⟨_, rfl, rfl⟩

/-- Witness for C3: an empty title is rejected with the state
unchanged; a non-empty title yields a task owned by the caller. -/
theorem claim3_witness :
    createTaskHandler wState "u1" { title := some "" } "t9" 10 =
        (.apiError 422 "Validation failed", wState) ∧
      ∃ task, createTaskHandler wState "u1" { title := some "Buy milk" } "t9" 10 =
          (.okTask task, createTask wState task) ∧ task.userId = "u1" := by
  refine ⟨(claim3_create_validation wState "u1" { title := some "" } "t9" 10).1 (Or.inr rfl), ?_⟩
  exact (claim3_create_validation wState "u1" { title := some "Buy milk" } "t9" 10).2 (by decide)

end Motivodo

namespace Motivodo

/-- C8: registering a username that some existing user already holds
answers 400 Conflict and returns the state unchanged — so the existing
account (in particular its stored password hash) is exactly what it was
and no user row is added. -/
theorem claim8_register_conflict (st : AppState) (username password : String)
    (hash : String → String) (newId : String) (u : User)
    (hmem : u ∈ st.users) (hname : u.username = username)
    (hv : insertUserSchemaOk username password = true) :
    registerHandler st username password hash newId =
      (.apiError 400 "Username already exists", st) := by
  have hsome : ∃ w, getUserByUsername st username = some w := by
    rw [← Option.isSome_iff_exists]
    unfold getUserByUsername
    rw [List.find?_isSome]
    exact ⟨u, hmem, by simp [hname]⟩
  obtain ⟨w, hw⟩ := hsome
  unfold registerHandler
  rw [hv, hw]
  simp

/-- Witness for C8: a second registration of `alice` against the state
that already holds her account is rejected and changes nothing. -/
theorem claim8_witness :
    registerHandler wState "alice" "pw2" (fun s => s ++ "#h") "u9" =
      (.apiError 400 "Username already exists", wState) :=
  claim8_register_conflict wState "alice" "pw2" (fun s => s ++ "#h") "u9" wUser1
    (by decide) rfl (by decide)

/-! ## The authenticated task-list endpoint -/

/-- `GET /api/tasks`: the authentication middleware followed by the
list handler. -/
def getTasksEndpoint (st : AppState) (cookie : Option SessionToken)
    (secret : String) (now : Nat) : ApiResult × AppState :=
  withAuth cookie secret now (fun uid => (listTasksHandler st uid, st)) st

/-- The referential-integrity invariant of the persistence layer:
every task's owning user identifier is an existing user's id (the
`userId` column is a foreign key into `users`). -/
def ownersExist (st : AppState) : Prop :=
  ∀ t ∈ st.tasks, ∃ u ∈ st.users, u.id = t.userId

/-- C9: a correctly signed, unexpired token whose embedded user id
matches no existing user still authenticates — the middleware checks
only signature and expiry — and the task list endpoint answers 200
with the empty list (under referential integrity the deleted user owns
no stored task). -/
theorem claim9_ghost_token (st : AppState) (tok : SessionToken) (secret : String) (now : Nat)
    (hfk : ownersExist st)
    (hsig : tok.sig = mkSig secret tok.userId tok.exp)
    (hexp : now < tok.exp)
    (hghost : ∀ u ∈ st.users, u.id ≠ tok.userId) :
    getTasksEndpoint st (some tok) secret now = (.okTasks [], st) := by
  have hfilter : st.tasks.filter (fun t => t.userId == tok.userId) = [] := by
    rw [List.filter_eq_nil_iff]
    intro t hmem
    obtain ⟨u, humem, huid⟩ := hfk t hmem
    simp only [beq_iff_eq]
    intro he
    exact hghost u humem (huid.trans he)
  have hlist : getTasksByUserId st tok.userId = [] := by
    unfold getTasksByUserId
    rw [hfilter]
    rfl
  unfold getTasksEndpoint withAuth jwtVerify
  simp [hsig, hexp, listTasksHandler, hlist]

/-- A token signed for a user id that no user of the fixture state
has. -/
def wGhostToken : SessionToken :=
  { userId := "ghost", exp := 100, sig := mkSig JWT_SECRET "ghost" 100 }

/-- Witness for C9: the ghost token authenticates against the fixture
state and receives the empty task list. -/
theorem claim9_witness :
    getTasksEndpoint wState (some wGhostToken) JWT_SECRET 50 = (.okTasks [], wState) :=
  claim9_ghost_token wState wGhostToken JWT_SECRET 50 (by unfold ownersExist; decide) rfl
    (by decide) (by decide)

end Motivodo

namespace Motivodo

/-- A call on the cached quote's own date returns the cached pair and
leaves the cache untouched. -/
theorem dailyQuote_cached_same_day (c : CachedQuote) (today : String) (num den : Nat)
    (r : Option String) (hd : c.date = today) :
    dailyQuoteHandler (some c) today num den r = (⟨c.text, c.author⟩, some c) := by
  unfold dailyQuoteHandler
  simp [hd]

/-- After any call, the cache holds exactly the text/author pair just
served, stamped with the call's date. -/
theorem dailyQuote_cache_fields (cache : Option CachedQuote) (today : String)
    (num den : Nat) (r : Option String) :
    ∃ cc, (dailyQuoteHandler cache today num den r).2 = some cc ∧
      cc.text = (dailyQuoteHandler cache today num den r).1.text ∧
      cc.author = (dailyQuoteHandler cache today num den r).1.author ∧
      cc.date = today := by
  unfold dailyQuoteHandler
  cases cache with
  | none => exact ⟨_, rfl, rfl, rfl, rfl⟩
  | some c =>
    by_cases hd : c.date = today
    · simp only [hd, beq_self_eq_true, if_true]
      exact ⟨c, rfl, rfl, rfl, hd⟩
    · have hb : (c.date == today) = false := by simp [hd]
      simp only [hb, Bool.false_eq_true, if_false]
      exact ⟨_, rfl, rfl, rfl, rfl⟩

/-- Any sequence of calls all dated the cached quote's own day yields
that cached pair on every call. -/
theorem runQuoteCalls_same_day (day : String) :
    ∀ (calls : List QuoteCall) (c : CachedQuote), c.date = day →
      (∀ call ∈ calls, call.today = day) →
      (runQuoteCalls (some c) calls).1 =
        calls.map (fun _ => (⟨c.text, c.author⟩ : Quote)) := by
  intro calls
  induction calls with
  | nil => intro c _ _; rfl
  | cons a rest ih =>
    intro c hc hall
    have ha : a.today = day := hall a (List.mem_cons_self a rest)
    have hstep := dailyQuote_cached_same_day c a.today a.num a.den a.r (hc.trans ha.symm)
    simp only [runQuoteCalls, hstep, List.map_cons]
    rw [ih c hc (fun x hx => hall x (List.mem_cons_of_mem a hx))]

/-- C7: within one calendar day the daily-quote endpoint is constant —
whatever the cache held before, every call after the first call of day
`day` returns exactly the first call's (text, author) pair — and the
refresh path discriminator has no effect on the response at all. -/
theorem claim7_daily_quote_stable (cache : Option CachedQuote) (day : String)
    (num den : Nat) (r : Option String) (calls : List QuoteCall)
    (hdays : ∀ call ∈ calls, call.today = day) :
    (∀ r2, dailyQuoteHandler cache day num den r = dailyQuoteHandler cache day num den r2) ∧
      (runQuoteCalls (dailyQuoteHandler cache day num den r).2 calls).1 =
        calls.map (fun _ => (dailyQuoteHandler cache day num den r).1) := by
  refine ⟨fun r2 => rfl, ?_⟩
  obtain ⟨cc, hcc, htext, hauthor, hdate⟩ := dailyQuote_cache_fields cache day num den r
  rw [hcc, runQuoteCalls_same_day day calls cc hdate hdays, htext, hauthor]

/-- Witness for C7: starting from an empty cache on day `Mon`, two
further same-day calls with different random draws and different
refresh discriminators both return the first call's quote. -/
theorem claim7_witness :
    (runQuoteCalls (dailyQuoteHandler none "Mon" 0 1 none).2
        [⟨"Mon", 3, 7, some "x"⟩, ⟨"Mon", 5, 9, none⟩]).1 =
      [(dailyQuoteHandler none "Mon" 0 1 none).1, (dailyQuoteHandler none "Mon" 0 1 none).1] := by
  have h := (claim7_daily_quote_stable none "Mon" 0 1 none
    [⟨"Mon", 3, 7, some "x"⟩, ⟨"Mon", 5, 9, none⟩] (by decide)).2
  simpa using h

/-- The random index is always within the 20-entry list: the draw is
`num / den` with `num < den`, so `floor((num / den) * 20) < 20`. -/
theorem pickIndex_lt (num den : Nat) (h : num < den) : pickIndex num den < quotes.length := by
  unfold pickIndex
  have hden : 0 < den := Nat.lt_of_le_of_lt (Nat.zero_le num) h
  have h20 : quotes.length = 20 := rfl
  rw [Nat.div_lt_iff_lt_mul hden, h20]
  omega

theorem getD_mem_of_lt {α : Type} {l : List α} {i : Nat} (h : i < l.length) (d : α) :
    l.getD i d ∈ l := by
  rw [List.getD_eq_getElem?_getD, List.getElem?_eq_getElem h]
  exact List.getElem_mem h

/-- The invariant the quote cache maintains: when non-empty, it caches
a pair from the fixed quote list. -/
def cacheInv : Option CachedQuote → Prop
  | none => True
  | some c => (⟨c.text, c.author⟩ : Quote) ∈ quotes

/-- One call preserves the cache invariant and serves a quote from the
list, provided the random draw is well-formed. -/
theorem dailyQuote_step_inv (cache : Option CachedQuote) (today : String)
    (num den : Nat) (r : Option String) (hinv : cacheInv cache) (hrand : num < den) :
    (dailyQuoteHandler cache today num den r).1 ∈ quotes ∧
      cacheInv (dailyQuoteHandler cache today num den r).2 := by
  have hfresh : (quotes.getD (pickIndex num den) ⟨"", ""⟩) ∈ quotes :=
    getD_mem_of_lt (pickIndex_lt num den hrand) _
  unfold dailyQuoteHandler
  cases cache with
  | none => exact ⟨hfresh, hfresh⟩
  | some c =>
    by_cases hd : c.date = today
    · simp only [hd, beq_self_eq_true, if_true]
      exact ⟨hinv, hinv⟩
    · have hb : (c.date == today) = false := by simp [hd]
      simp only [hb, Bool.false_eq_true, if_false]
      exact ⟨hfresh, hfresh⟩

theorem quoteReachable_inv {cache : Option CachedQuote} (h : QuoteReachable cache) :
    cacheInv cache := by
  induction h with
  | init => trivial
  | step today r hrand hre ih => exact (dailyQuote_step_inv _ today _ _ r ih hrand).2

/-- C10: in every reachable cache state, a call to the daily-quote
endpoint with a well-formed random draw serves an element of the fixed
20-entry quote list — the computed random index is in bounds, so the
out-of-range fallback of the indexing is never taken and the endpoint
always succeeds. -/
theorem claim10_quote_in_list (cache : Option CachedQuote) (today : String)
    (num den : Nat) (r : Option String)
    (hreach : QuoteReachable cache) (hrand : num < den) :
    (dailyQuoteHandler cache today num den r).1 ∈ quotes ∧
      pickIndex num den < quotes.length ∧ quotes.length = 20 :=
  ⟨(dailyQuote_step_inv cache today num den r (quoteReachable_inv hreach) hrand).1,
    pickIndex_lt num den hrand, rfl⟩

/-- Witness for C10: the very first call with draw `0 / 1` serves a
member of the quote list and the index is in bounds. -/
theorem claim10_witness :
    (dailyQuoteHandler none "Mon" 0 1 none).1 ∈ quotes ∧
      pickIndex 0 1 < quotes.length ∧ quotes.length = 20 :=
  claim10_quote_in_list none "Mon" 0 1 none QuoteReachable.init (by decide)

end Motivodo
